import Mathlib

/-!
Shallow embedding of the Clay chart extensions (pie chart and bar chart)
found in this repository, together with theorems checking the natural
language specification against the code.

Modelling conventions:
* C `float` values are idealized as exact rationals (`ℚ`); machine-integer
  arithmetic (`uint32_t`) is `Nat` with explicit `% 2 ^ 32` (or `% 2 ^ 31`
  for the `& 0x7fffffff` mask).
* C pointers that may be NULL become `Option`; the `(data, dataCount)` pair
  of a config becomes `data : Option (List _)` with `dataCount` the list
  length (a `dataCount` disagreeing with the allocation is out-of-bounds
  undefined behaviour in the source).
* The raylib render-texture backend is modelled by a fresh-handle counter:
  `LoadRenderTexture` hands out a fresh nonzero id of the requested size and
  `UnloadRenderTexture` releases a handle.  Resource traffic is recorded as
  an explicit event trace.
* The C unions `colorConfig` are modelled as a record holding every member;
  the implementation only ever reads the member selected by `colorMode`.
-/

/-- Color with rational channels, modelling `Clay_Color` (four floats). -/
structure Clay_Color where
  r : ℚ
  g : ℚ
  b : ℚ
  a : ℚ
deriving DecidableEq, Repr

/-- One slice of pie data, modelling `Clay_PieChart_DataPoint`. -/
structure Clay_PieChart_DataPoint where
  value : ℚ
  label : String
  color : Clay_Color
  exploded : Bool
deriving DecidableEq, Repr

/-- The pie chart color mode enum `Clay_PieChart_ColorMode`. -/
inductive Clay_PieChart_ColorMode
  | perSegment
  | palette
  | gradient
  | random
deriving DecidableEq, Repr

/-- Numeric value of the C enum constant (used when the enum is hashed). -/
def Clay_PieChart_ColorMode.toNat : Clay_PieChart_ColorMode → Nat
  | .perSegment => 0
  | .palette => 1
  | .gradient => 2
  | .random => 3

/-- Palette payload `Clay_PieChart_Palette`; `none` models a NULL `colors`
pointer, and `count` is the list length. -/
structure Clay_PieChart_Palette where
  colors : Option (List Clay_Color)
deriving DecidableEq, Repr

/-- Gradient payload `Clay_PieChart_Gradient`.  The second source field is
named `end`, which is a Lean keyword, so it is rendered `endColor` here. -/
structure Clay_PieChart_Gradient where
  start : Clay_Color
  endColor : Clay_Color
deriving DecidableEq, Repr

/-- Seed payload `Clay_PieChart_Random` (`0` = use a time-based seed). -/
structure Clay_PieChart_Random where
  seed : Nat
deriving DecidableEq, Repr

/-- The `colorConfig` union of the pie config.  The code only reads the
member selected by `colorMode`, so holding all three members is a faithful
rendering of the union. -/
structure PieColorConfig where
  palette : Clay_PieChart_Palette
  gradient : Clay_PieChart_Gradient
  random : Clay_PieChart_Random
deriving DecidableEq, Repr

/-- The pie chart configuration `Clay_PieChart_Config`. -/
structure Clay_PieChart_Config where
  data : Option (List Clay_PieChart_DataPoint)
  radius : ℚ
  donutHoleRadius : ℚ
  explodeDistance : ℚ
  showLabels : Bool
  showValues : Bool
  showPercentages : Bool
  showLegend : Bool
  showSectorLines : Bool
  backgroundColor : Clay_Color
  labelTextColor : Clay_Color
  sectorLineColor : Clay_Color
  labelFontSize : Nat
  labelFontId : Nat
  startAngle : ℚ
  colorMode : Clay_PieChart_ColorMode
  colorConfig : PieColorConfig
deriving DecidableEq, Repr

/-- The data array of a config (empty when the pointer is NULL). -/
def pieDataList (config : Clay_PieChart_Config) : List Clay_PieChart_DataPoint :=
  config.data.getD []

/-- The `dataCount` field of a config (the length of the data array). -/
def pieDataCount (config : Clay_PieChart_Config) : Nat :=
  (pieDataList config).length

/-- Data point read `config->data[index]` (out of range is UB in C; an
all-zero point stands in for it and is never reached by the theorems). -/
def pieDataPointAt (config : Clay_PieChart_Config) (index : Nat) :
    Clay_PieChart_DataPoint :=
  (pieDataList config).getD index ⟨0, "", ⟨0, 0, 0, 0⟩, false⟩

/-- Modulus of 32-bit unsigned arithmetic. -/
def UINT32_MOD : Nat := 2 ^ 32

/-- One FNV-1a style combining step of `Clay_PieChart__HashConfig`:
`hash ^= x; hash *= 16777619u;` in `uint32_t` arithmetic. -/
def fnvCombine (h x : Nat) : Nat := ((h ^^^ x) * 16777619) % UINT32_MOD

/-- Stand-in for the 32-bit pattern the C code obtains by reinterpreting a
float value (`*(uint32_t*)&x`).  The development relies only on this being
a function of the numeric value: equal values yield equal bit patterns. -/
def floatBits (q : ℚ) : Nat :=
  (2 * q.num.natAbs + (if q.num < 0 then 1 else 0) + 2654435761 * q.den) % UINT32_MOD

/-- C boolean folded into the hash as `b ? 1 : 0`. -/
def boolBit (b : Bool) : Nat := if b then 1 else 0

/-- The config hash `Clay_PieChart__HashConfig`: FNV-1a over each data
point's value bits and exploded flag, then `radius`, `donutHoleRadius`,
`colorMode` and `showSectorLines`. -/
def Clay_PieChart__HashConfig (config : Clay_PieChart_Config) : Nat :=
  let h0 : Nat := 2166136261
  let h1 := (pieDataList config).foldl
    (fun h p => fnvCombine (fnvCombine h (floatBits p.value)) (boolBit p.exploded)) h0
  let h2 := fnvCombine h1 (floatBits config.radius)
  let h3 := fnvCombine h2 (floatBits config.donutHoleRadius)
  let h4 := fnvCombine h3 config.colorMode.toNat
  fnvCombine h4 (boolBit config.showSectorLines)

/-- The total of the data values, `Clay_PieChart__CalculateTotalValue`. -/
def Clay_PieChart__CalculateTotalValue (config : Clay_PieChart_Config) : ℚ :=
  ((pieDataList config).map (fun p => p.value)).sum

/-- Componentwise color interpolation `Clay_PieChart__LerpColor`. -/
def Clay_PieChart__LerpColor (start endC : Clay_Color) (t : ℚ) : Clay_Color :=
  ⟨start.r + (endC.r - start.r) * t,
   start.g + (endC.g - start.g) * t,
   start.b + (endC.b - start.b) * t,
   start.a + (endC.a - start.a) * t⟩

/-- The linear congruential step `Clay_PieChart__Random`: the C source
computes `(*seed * 1103515245 + 12345) & 0x7fffffff` in `uint32_t`
arithmetic, which equals the low 31 bits of the product-plus-increment. -/
def Clay_PieChart__Random (seed : Nat) : Nat :=
  (seed * 1103515245 + 12345) % 2 ^ 31

/-- Color built from one pseudo-random draw in the `RANDOM` color mode. -/
def randomColorOf (rnd : Nat) : Clay_Color :=
  ⟨((100 + rnd % 156 : Nat) : ℚ),
   ((100 + (rnd >>> 8) % 156 : Nat) : ℚ),
   ((100 + (rnd >>> 16) % 156 : Nat) : ℚ),
   255⟩

/-- Segment color selection `Clay_PieChart__GetSegmentColor`.  The C
function reads and updates a function-local `static uint32_t seed`; that
hidden state is made explicit as the `seed` argument and second result.
`timeSeed` models the `time(NULL)` fallback used when both the stored seed
and the configured seed are zero. -/
def Clay_PieChart__GetSegmentColor (config : Clay_PieChart_Config) (index : Nat)
    (seed timeSeed : Nat) : Clay_Color × Nat :=
  match config.colorMode with
  | .perSegment => ((pieDataPointAt config index).color, seed)
  | .palette =>
    match config.colorConfig.palette.colors with
    | some cs =>
      if 0 < cs.length then
        (cs.getD (index % cs.length) ⟨0, 0, 0, 0⟩, seed)
      else
        ((pieDataPointAt config index).color, seed)
    | none => ((pieDataPointAt config index).color, seed)
  | .gradient =>
    let t : ℚ :=
      if 1 < pieDataCount config then
        (index : ℚ) / ((pieDataCount config - 1 : Nat) : ℚ)
      else 0
    (Clay_PieChart__LerpColor config.colorConfig.gradient.start
      config.colorConfig.gradient.endColor t, seed)
  | .random =>
    let seedInit :=
      if seed = 0 then
        if config.colorConfig.random.seed ≠ 0 then config.colorConfig.random.seed
        else timeSeed
      else seed
    let rnd := Clay_PieChart__Random seedInit
    (randomColorOf rnd, rnd)

/-- Record of one `Clay_PieChart__RenderSegment` call: the geometric and
color arguments handed to the raylib drawing primitives. -/
structure SegmentDraw where
  index : Nat
  centerX : ℚ
  centerY : ℚ
  startAngleDeg : ℚ
  sweepAngleDeg : ℚ
  color : Clay_Color
  exploded : Bool
deriving DecidableEq, Repr

/-- The segment loop shared by `Clay_PieChart_PrepareTexture` and
`Clay_PieChart_Draw`: walks the data points carrying the running angle
(starting from the configured start angle) and the PRNG seed, giving each
point a sweep of `value / totalValue * 360` degrees. -/
def pieSegmentLoop (config : Clay_PieChart_Config) (totalValue cX cY : ℚ)
    (timeSeed : Nat) :
    Nat → List Clay_PieChart_DataPoint → ℚ → Nat → List SegmentDraw × Nat
  | _, [], _, seed => ([], seed)
  | i, p :: rest, angle, seed =>
    let sweep := p.value / totalValue * 360
    let step := Clay_PieChart__GetSegmentColor config i seed timeSeed
    let tail := pieSegmentLoop config totalValue cX cY timeSeed (i + 1) rest
      (angle + sweep) step.2
    (⟨i, cX, cY, angle, sweep, step.1, p.exploded⟩ :: tail.1, tail.2)

/-- One full render pass over the data of a config (the `for` loop of the
texture regeneration in `Clay_PieChart_PrepareTexture`, and likewise the
loop of `Clay_PieChart_Draw`). -/
def pieRenderPass (config : Clay_PieChart_Config) (totalValue cX cY : ℚ)
    (seed timeSeed : Nat) : List SegmentDraw × Nat :=
  pieSegmentLoop config totalValue cX cY timeSeed 0 (pieDataList config)
    config.startAngle seed

/-- Raylib render texture handle, flattening `RenderTexture2D` to its id and
the width/height of `texture.texture` that the cache check compares. -/
structure RenderTexture2D where
  id : Nat
  width : Int
  height : Int
deriving DecidableEq, Repr

/-- The custom element type tag `CLAY_PIECHART_CUSTOM_ELEMENT_TYPE`
(0x50494543, the ASCII bytes PIEC). -/
def CLAY_PIECHART_CUSTOM_ELEMENT_TYPE : Nat := 0x50494543

/-- Cached chart state `Clay_PieChart_CustomElementData` (the static
storage shared by `Clay_PieChart_Render` and the texture preparation). -/
structure Clay_PieChart_CustomElementData where
  elementType : Nat
  config : Clay_PieChart_Config
  totalValue : ℚ
  configHash : Nat
  texture : RenderTexture2D
  textureValid : Bool
deriving DecidableEq, Repr

/-- World state threaded through the stateful entry points: the static
element storage, the backend fresh-handle counter (`LoadRenderTexture`
returns handle `nextId + 1`), and the hidden PRNG seed of
`Clay_PieChart__GetSegmentColor`. -/
structure PieWorld where
  element : Clay_PieChart_CustomElementData
  nextId : Nat
  rngSeed : Nat
deriving DecidableEq, Repr

/-- C truncating float-to-int cast (round toward zero). -/
def cTrunc (q : ℚ) : Int := if 0 ≤ q then ⌊q⌋ else -⌊-q⌋

/-- Bounding box of a render command, `Clay_BoundingBox`. -/
structure Clay_BoundingBox where
  x : ℚ
  y : ℚ
  width : ℚ
  height : ℚ
deriving DecidableEq, Repr

/-- The staleness test inside `Clay_PieChart_PrepareTexture`: regenerate
when the cached texture is not valid, the stored fingerprint differs from
the current one, or the cached texture size differs from the request. -/
def needsRegeneration (e : Clay_PieChart_CustomElementData) (currentHash : Nat)
    (texWidth texHeight : Int) : Bool :=
  !e.textureValid || e.configHash != currentHash ||
    e.texture.width != texWidth || e.texture.height != texHeight

/-- Render texture resource traffic: a `LoadRenderTexture` or an
`UnloadRenderTexture` call. -/
inductive TexEvent
  | load (id : Nat) (width height : Int)
  | unload (id : Nat)
deriving DecidableEq, Repr

/-- Result of one `Clay_PieChart_PrepareTexture` call: the updated world,
the resource events in call order, the regeneration decision (`none` when
the call returned before the check), and the segments drawn into the
texture. -/
structure PrepareResult where
  world : PieWorld
  events : List TexEvent
  decision : Option Bool
  segments : List SegmentDraw
deriving DecidableEq, Repr

/-- The texture preparation step `Clay_PieChart_PrepareTexture`.  The
render command's `customData` pointer refers to the world's element (the
single static storage of this extension); `bounds` is the command's
bounding box and `timeSeed` models `time(NULL)`. -/
def Clay_PieChart_PrepareTexture (w : PieWorld) (bounds : Clay_BoundingBox)
    (timeSeed : Nat) : PrepareResult :=
  let e := w.element
  if e.elementType ≠ CLAY_PIECHART_CUSTOM_ELEMENT_TYPE then ⟨w, [], none, []⟩
  else
    let config := e.config
    let totalValue := e.totalValue
    if pieDataCount config = 0 ∨ config.data = none ∨ totalValue ≤ 0 then
      ⟨w, [], none, []⟩
    else
      let texWidth : Int := max 128 (cTrunc (bounds.width * 2))
      let texHeight : Int := max 128 (cTrunc (bounds.height * 2))
      let currentHash := Clay_PieChart__HashConfig config
      if needsRegeneration e currentHash texWidth texHeight then
        let unloadEvents :=
          if e.textureValid && e.texture.id != 0 then [TexEvent.unload e.texture.id]
          else []
        let newId := w.nextId + 1
        let tex : RenderTexture2D := ⟨newId, texWidth, texHeight⟩
        let maxDimension := config.radius * 2 + config.explodeDistance * 2
        let scaleX := (texWidth : ℚ) / maxDimension
        let scaleY := (texHeight : ℚ) / maxDimension
        let scale := if scaleX < scaleY then scaleX else scaleY
        let centerX := (texWidth : ℚ) / 2
        let centerY := (texHeight : ℚ) / 2
        let scaledConfig :=
          { config with
            radius := config.radius * scale
            explodeDistance := config.explodeDistance * scale
            donutHoleRadius := config.donutHoleRadius * scale }
        let pass := pieRenderPass scaledConfig totalValue centerX centerY
          w.rngSeed timeSeed
        ⟨⟨{ e with texture := tex, textureValid := true, configHash := currentHash },
            newId, pass.2⟩,
          unloadEvents ++ [TexEvent.load newId texWidth texHeight],
          some true, pass.1⟩
      else ⟨w, [], some false, []⟩

/-- Result of one `Clay_PieChart_Render` call (the cached-texture variant):
the updated world, the resource events, and whether the chart element tree
was emitted at all. -/
structure RenderResult where
  world : PieWorld
  events : List TexEvent
  emitted : Bool
deriving DecidableEq, Repr

/-- The layout entry point `Clay_PieChart_Render` of the cached-texture
variant: degenerate configs return before touching the static element; a
changed config hash unloads a live texture and invalidates the cache. -/
def Clay_PieChart_Render (w : PieWorld) (config : Clay_PieChart_Config) :
    RenderResult :=
  if pieDataCount config = 0 ∨ config.data = none then ⟨w, [], false⟩
  else
    let totalValue := Clay_PieChart__CalculateTotalValue config
    if totalValue ≤ 0 then ⟨w, [], false⟩
    else
      let e := w.element
      let newConfigHash := Clay_PieChart__HashConfig config
      let configChanged := e.configHash != newConfigHash
      let events :=
        if configChanged && e.textureValid && (e.texture.id != 0) then
          [TexEvent.unload e.texture.id]
        else []
      let e1 : Clay_PieChart_CustomElementData :=
        { elementType := CLAY_PIECHART_CUSTOM_ELEMENT_TYPE
          config := config
          totalValue := totalValue
          configHash := newConfigHash
          texture := if configChanged then ⟨0, 0, 0⟩ else e.texture
          textureValid := if configChanged then false else e.textureValid }
      ⟨⟨e1, w.nextId, w.rngSeed⟩, events, true⟩

/-- `Clay_PieChart_GetTexture`: the renderer obtains the cached texture
only when the element carries the pie tag and the texture is valid. -/
def Clay_PieChart_GetTexture (e : Clay_PieChart_CustomElementData) :
    Option RenderTexture2D :=
  if e.elementType ≠ CLAY_PIECHART_CUSTOM_ELEMENT_TYPE then none
  else if e.textureValid then some e.texture else none

/-- Diagnostics printed to stderr by `Clay_PieChart_Draw`. -/
inductive PieLogEvent
  | noData
  | elementNotFound (triedId : Nat)
  | elementIdListing (index : Nat) (id : Nat)
deriving DecidableEq, Repr

/-- One entry of the render command array as far as `Clay_PieChart_Draw`
reads it: the element id and the bounding box. -/
structure RenderCommandInfo where
  id : Nat
  boundingBox : Clay_BoundingBox
deriving DecidableEq, Repr

/-- Result of one `Clay_PieChart_Draw` call: the stderr diagnostics, the
segments drawn, and the PRNG seed after the call. -/
structure DrawResult where
  logs : List PieLogEvent
  segments : List SegmentDraw
  rngSeed : Nat
deriving DecidableEq, Repr

/-- The immediate drawing entry point `Clay_PieChart_Draw` of the
texture-less variant.  `chartId` is the hashed element id the function
looks up in the render commands; `seed` is the hidden PRNG seed. -/
def Clay_PieChart_Draw (chartId : Nat) (config : Clay_PieChart_Config)
    (renderCommands : List RenderCommandInfo) (seed timeSeed : Nat) : DrawResult :=
  if pieDataCount config = 0 ∨ config.data = none then ⟨[.noData], [], seed⟩
  else
    let totalValue := Clay_PieChart__CalculateTotalValue config
    if totalValue ≤ 0 then ⟨[], [], seed⟩
    else
      match renderCommands.find? (fun c => c.id == chartId) with
      | none =>
        ⟨.elementNotFound chartId ::
            ((renderCommands.take 5).enum.map fun p => .elementIdListing p.1 p.2.id),
          [], seed⟩
      | some cmd =>
        let chartBounds := cmd.boundingBox
        let pieAreaSize := config.radius * 2 + config.explodeDistance * 2
        let centerX :=
          if config.showLegend then chartBounds.x + 16 + pieAreaSize / 2
          else chartBounds.x + chartBounds.width / 2
        let centerY := chartBounds.y + chartBounds.height / 2
        let pass := pieRenderPass config totalValue centerX centerY seed timeSeed
        ⟨[], pass.1, pass.2⟩

/-- All-zero pie config: the content of the zero-initialized static element
storage before the first render. -/
def emptyPieConfig : Clay_PieChart_Config :=
  ⟨none, 0, 0, 0, false, false, false, false, false,
    ⟨0, 0, 0, 0⟩, ⟨0, 0, 0, 0⟩, ⟨0, 0, 0, 0⟩, 0, 0, 0,
    .perSegment, ⟨⟨none⟩, ⟨⟨0, 0, 0, 0⟩, ⟨0, 0, 0, 0⟩⟩, ⟨0⟩⟩⟩

/-- The zero-initialized world before the first call (C static storage). -/
def initialPieWorld : PieWorld :=
  ⟨⟨0, emptyPieConfig, 0, 0, ⟨0, 0, 0⟩, false⟩, 0, 0⟩

/-- One call to a stateful pie chart entry point. -/
inductive PieOp
  | renderOp (config : Clay_PieChart_Config)
  | prepareOp (bounds : Clay_BoundingBox) (timeSeed : Nat)

/-- Execute one entry-point call, returning the world and its events. -/
def stepOp (w : PieWorld) : PieOp → PieWorld × List TexEvent
  | .renderOp config =>
    let r := Clay_PieChart_Render w config
    (r.world, r.events)
  | .prepareOp bounds t =>
    let r := Clay_PieChart_PrepareTexture w bounds t
    (r.world, r.events)

/-- Execute a sequence of entry-point calls, concatenating event traces. -/
def runOps : PieWorld → List PieOp → PieWorld × List TexEvent
  | w, [] => (w, [])
  | w, op :: ops =>
    let s := stepOp w op
    let r := runOps s.1 ops
    (r.1, s.2 ++ r.2)

/-- Update the list of live render texture handles by one event. -/
def applyTexEvent (live : List Nat) : TexEvent → List Nat
  | .load i _ _ => live ++ [i]
  | .unload i => live.erase i

/-- Live render texture handles after an event trace. -/
def liveAfter (events : List TexEvent) : List Nat :=
  events.foldl applyTexEvent []

/-- Bar chart orientation enum `Clay_BarChart_Orientation`. -/
inductive Clay_BarChart_Orientation
  | vertical
  | horizontal
deriving DecidableEq, Repr

/-- One bar of data, modelling `Clay_BarChart_DataPoint`. -/
structure Clay_BarChart_DataPoint where
  value : ℚ
  label : String
  color : Clay_Color
deriving DecidableEq, Repr

/-- The bar chart color mode enum `Clay_BarChart_ColorMode`. -/
inductive Clay_BarChart_ColorMode
  | perBar
  | palette
  | gradient
  | random
deriving DecidableEq, Repr

/-- Palette payload `Clay_BarChart_Palette` (`none` = NULL pointer). -/
structure Clay_BarChart_Palette where
  colors : Option (List Clay_Color)
deriving DecidableEq, Repr

/-- Gradient payload `Clay_BarChart_Gradient` (source field `end` becomes
`endColor`, `end` being a Lean keyword). -/
structure Clay_BarChart_Gradient where
  start : Clay_Color
  endColor : Clay_Color
deriving DecidableEq, Repr

/-- Seed payload `Clay_BarChart_Random` (`0` = use a time-based seed). -/
structure Clay_BarChart_Random where
  seed : Nat
deriving DecidableEq, Repr

/-- The `colorConfig` union of the bar config, as a record of all members
(the code only reads the member selected by `colorMode`). -/
structure BarColorConfig where
  palette : Clay_BarChart_Palette
  gradient : Clay_BarChart_Gradient
  random : Clay_BarChart_Random
deriving DecidableEq, Repr

/-- The bar chart configuration `Clay_BarChart_Config`. -/
structure Clay_BarChart_Config where
  data : Option (List Clay_BarChart_DataPoint)
  orientation : Clay_BarChart_Orientation
  barWidth : ℚ
  barGap : ℚ
  maxValue : ℚ
  backgroundColor : Clay_Color
  gridColor : Clay_Color
  labelTextColor : Clay_Color
  labelFontSize : Nat
  labelFontId : Nat
  showGrid : Bool
  showLabels : Bool
  showValues : Bool
  colorMode : Clay_BarChart_ColorMode
  colorConfig : BarColorConfig
deriving DecidableEq, Repr

/-- The data array of a bar config (empty when the pointer is NULL). -/
def barDataList (config : Clay_BarChart_Config) : List Clay_BarChart_DataPoint :=
  config.data.getD []

/-- The `dataCount` field of a bar config. -/
def barDataCount (config : Clay_BarChart_Config) : Nat :=
  (barDataList config).length

/-- Data point read `config->data[index]` for the bar chart. -/
def barDataPointAt (config : Clay_BarChart_Config) (index : Nat) :
    Clay_BarChart_DataPoint :=
  (barDataList config).getD index ⟨0, "", ⟨0, 0, 0, 0⟩⟩

/-- The linear congruential step `Clay_BarChart__Random` (identical to the
pie chart one, including the `& 0x7fffffff` mask). -/
def Clay_BarChart__Random (seed : Nat) : Nat :=
  (seed * 1103515245 + 12345) % 2 ^ 31

/-- Componentwise color interpolation `Clay_BarChart__LerpColor`. -/
def Clay_BarChart__LerpColor (start endC : Clay_Color) (t : ℚ) : Clay_Color :=
  ⟨start.r + (endC.r - start.r) * t,
   start.g + (endC.g - start.g) * t,
   start.b + (endC.b - start.b) * t,
   start.a + (endC.a - start.a) * t⟩

/-- Bar color selection `Clay_BarChart__GetBarColor`, with the hidden
static seed made explicit exactly as for the pie chart helper. -/
def Clay_BarChart__GetBarColor (config : Clay_BarChart_Config) (index : Nat)
    (seed timeSeed : Nat) : Clay_Color × Nat :=
  match config.colorMode with
  | .perBar => ((barDataPointAt config index).color, seed)
  | .palette =>
    match config.colorConfig.palette.colors with
    | some cs =>
      if 0 < cs.length then
        (cs.getD (index % cs.length) ⟨0, 0, 0, 0⟩, seed)
      else
        ((barDataPointAt config index).color, seed)
    | none => ((barDataPointAt config index).color, seed)
  | .gradient =>
    let t : ℚ :=
      if 1 < barDataCount config then
        (index : ℚ) / ((barDataCount config - 1 : Nat) : ℚ)
      else 0
    (Clay_BarChart__LerpColor config.colorConfig.gradient.start
      config.colorConfig.gradient.endColor t, seed)
  | .random =>
    let seedInit :=
      if seed = 0 then
        if config.colorConfig.random.seed ≠ 0 then config.colorConfig.random.seed
        else timeSeed
      else seed
    let rnd := Clay_BarChart__Random seedInit
    (randomColorOf rnd, rnd)

/-- State of the static 32-entry config ring `Clay__BarChartConfigBuffer`
together with its cursor `Clay__BarChartConfigIndex`. -/
structure BarConfigStore where
  buffer : Fin 32 → Clay_BarChart_Config
  index : Nat

/-- The default-filling pass at the top of `Clay__StoreBarChartConfig`:
a zero `labelFontSize` becomes 16, an all-zero background or label color
gets its default, a zero `barWidth` becomes 60 and a zero `barGap` 8. -/
def applyBarConfigDefaults (config : Clay_BarChart_Config) : Clay_BarChart_Config :=
  let c1 :=
    if config.labelFontSize = 0 then { config with labelFontSize := 16 } else config
  let c2 :=
    if c1.backgroundColor.a = 0 ∧ c1.backgroundColor.r = 0 ∧
        c1.backgroundColor.g = 0 ∧ c1.backgroundColor.b = 0 then
      { c1 with backgroundColor := ⟨245, 245, 245, 255⟩ }
    else c1
  let c3 :=
    if c2.labelTextColor.a = 0 ∧ c2.labelTextColor.r = 0 ∧
        c2.labelTextColor.g = 0 ∧ c2.labelTextColor.b = 0 then
      { c2 with labelTextColor := ⟨60, 60, 60, 255⟩ }
    else c2
  let c4 := if c3.barWidth = 0 then { c3 with barWidth := 60 } else c3
  if c4.barGap = 0 then { c4 with barGap := 8 } else c4

/-- The config store `Clay__StoreBarChartConfig`: reset the cursor when it
has reached 32, fill defaults, write the slot, return its address (here the
slot number) and post-increment the cursor. -/
def Clay__StoreBarChartConfig (s : BarConfigStore) (config : Clay_BarChart_Config) :
    Fin 32 × BarConfigStore :=
  if h : 32 ≤ s.index then
    let slot : Fin 32 := ⟨0, by omega⟩
    (slot, ⟨Function.update s.buffer slot (applyBarConfigDefaults config), 1⟩)
  else
    let slot : Fin 32 := ⟨s.index, by omega⟩
    (slot, ⟨Function.update s.buffer slot (applyBarConfigDefaults config), s.index + 1⟩)

/-- All-zero bar config (content of the zero-initialized static buffer). -/
def emptyBarConfig : Clay_BarChart_Config :=
  ⟨none, .vertical, 0, 0, 0, ⟨0, 0, 0, 0⟩, ⟨0, 0, 0, 0⟩, ⟨0, 0, 0, 0⟩, 0, 0,
    false, false, false, .perBar, ⟨⟨none⟩, ⟨⟨0, 0, 0, 0⟩, ⟨0, 0, 0, 0⟩⟩, ⟨0⟩⟩⟩

/-- The zero-initialized config store at program start. -/
def initialBarStore : BarConfigStore := ⟨fun _ => emptyBarConfig, 0⟩

/-- The slot returned by the n-th `Clay__StoreBarChartConfig` call of a
frame, for a stream `f` of configs, starting from store `s`. -/
def storeStream (s : BarConfigStore) (f : Nat → Clay_BarChart_Config) :
    Nat → Fin 32 × BarConfigStore
  | 0 => Clay__StoreBarChartConfig s (f 0)
  | n + 1 => Clay__StoreBarChartConfig (storeStream s f n).2 (f (n + 1))

/-- Live render texture handles recorded in a world: the element's handle
when it is nonzero. -/
def liveOf (w : PieWorld) : List Nat :=
  if w.element.texture.id = 0 then [] else [w.element.texture.id]

/-- Reachable-state invariant of the cached element: the texture id is
nonzero exactly when the texture is marked valid. -/
def PieWorldInv (w : PieWorld) : Prop :=
  w.element.textureValid = true ↔ w.element.texture.id ≠ 0

/-- Segments laid out consecutively: each segment starts where the previous
one ended, beginning at the given angle. -/
def consecutiveFrom : ℚ → List SegmentDraw → Prop
  | _, [] => True
  | a, s :: rest => s.startAngleDeg = a ∧ consecutiveFrom (a + s.sweepAngleDeg) rest

/-- Replace the labels of a data list by the given list of new labels
(points beyond the new-label list keep their label). -/
def relabelPieData : List Clay_PieChart_DataPoint → List String →
    List Clay_PieChart_DataPoint
  | [], _ => []
  | ps, [] => ps
  | p :: ps, s :: ss => { p with label := s } :: relabelPieData ps ss

/-- A config equal to the given one except for label text and label font
fields, the fields the specification calls not fingerprint-relevant. -/
def relabelPieConfig (config : Clay_PieChart_Config) (newLabels : List String)
    (newTextColor : Clay_Color) (newFontSize newFontId : Nat) :
    Clay_PieChart_Config :=
  { config with
    data := config.data.map (fun l => relabelPieData l newLabels)
    labelTextColor := newTextColor
    labelFontSize := newFontSize
    labelFontId := newFontId }

/-- Segment color used in the concrete scenarios below. -/
def pieSegColor : Clay_Color := ⟨1, 2, 3, 255⟩

/-- The spec scenario config: data values 30, 50 and 20, radius 120, no
donut hole, default start angle, per-segment colors. -/
def pieScenarioConfig : Clay_PieChart_Config :=
  { data := some [⟨30, "A", pieSegColor, false⟩, ⟨50, "B", pieSegColor, false⟩,
      ⟨20, "C", pieSegColor, false⟩]
    radius := 120
    donutHoleRadius := 0
    explodeDistance := 10
    showLabels := false
    showValues := false
    showPercentages := true
    showLegend := true
    showSectorLines := true
    backgroundColor := ⟨255, 255, 255, 255⟩
    labelTextColor := ⟨60, 60, 60, 255⟩
    sectorLineColor := ⟨255, 255, 255, 200⟩
    labelFontSize := 14
    labelFontId := 0
    startAngle := -90
    colorMode := .perSegment
    colorConfig := ⟨⟨none⟩, ⟨⟨100, 150, 250, 255⟩, ⟨250, 100, 150, 255⟩⟩, ⟨0⟩⟩ }

/-- The scenario config with only the start angle changed. -/
def pieStartAngle0Config : Clay_PieChart_Config :=
  { pieScenarioConfig with startAngle := 0 }

/-- The scenario config with only non-fingerprint fields changed: explode
distance, start angle, legend flag and gradient payload. -/
def pieHashTwinConfig : Clay_PieChart_Config :=
  { pieScenarioConfig with
    explodeDistance := 99
    startAngle := 45
    showLegend := false
    colorConfig := ⟨⟨none⟩, ⟨⟨9, 9, 9, 9⟩, ⟨8, 8, 8, 8⟩⟩, ⟨0⟩⟩ }

/-- Element state whose cache was built for a 128 by 128 texture of the
scenario config. -/
def pieScenarioElement128 : Clay_PieChart_CustomElementData :=
  ⟨CLAY_PIECHART_CUSTOM_ELEMENT_TYPE, pieScenarioConfig, 100,
    Clay_PieChart__HashConfig pieScenarioConfig, ⟨1, 128, 128⟩, true⟩

/-- Element state whose cache matches a 256 by 256 request of the scenario
config (the reuse case). -/
def pieReuseElement256 : Clay_PieChart_CustomElementData :=
  ⟨CLAY_PIECHART_CUSTOM_ELEMENT_TYPE, pieScenarioConfig, 100,
    Clay_PieChart__HashConfig pieScenarioConfig, ⟨1, 256, 256⟩, true⟩

/-- The scenario config with zero data items (`dataCount == 0`). -/
def emptyPieDataConfig : Clay_PieChart_Config :=
  { pieScenarioConfig with data := some [] }

/-- A one-segment config in the seeded random color mode. -/
def pieRandomSeedConfig : Clay_PieChart_Config :=
  { pieScenarioConfig with
    data := some [⟨30, "A", pieSegColor, false⟩]
    colorMode := .random
    colorConfig := ⟨⟨none⟩, ⟨⟨0, 0, 0, 0⟩, ⟨0, 0, 0, 0⟩⟩, ⟨12345⟩⟩ }

/-- A two-segment config in the seeded random color mode. -/
def pieRandomTwinA : Clay_PieChart_Config :=
  { pieScenarioConfig with
    data := some [⟨30, "A", pieSegColor, false⟩, ⟨50, "B", pieSegColor, false⟩]
    colorMode := .random
    colorConfig := ⟨⟨none⟩, ⟨⟨0, 0, 0, 0⟩, ⟨0, 0, 0, 0⟩⟩, ⟨777⟩⟩ }

/-- A config with the same seed and data count as `pieRandomTwinA` but
different data values, labels and geometry. -/
def pieRandomTwinB : Clay_PieChart_Config :=
  { pieScenarioConfig with
    data := some [⟨1, "X", ⟨7, 7, 7, 7⟩, true⟩, ⟨2, "Y", ⟨6, 6, 6, 6⟩, false⟩]
    radius := 50
    startAngle := 10
    colorMode := .random
    colorConfig := ⟨⟨none⟩, ⟨⟨0, 0, 0, 0⟩, ⟨0, 0, 0, 0⟩⟩, ⟨777⟩⟩ }

/-- A three-segment config in the gradient color mode. -/
def pieGradientConfig : Clay_PieChart_Config :=
  { pieScenarioConfig with
    colorMode := .gradient
    colorConfig := ⟨⟨none⟩, ⟨⟨100, 150, 250, 255⟩, ⟨250, 100, 150, 255⟩⟩, ⟨0⟩⟩ }

/-- A one-segment config in the gradient color mode. -/
def pieGradientSingleConfig : Clay_PieChart_Config :=
  { pieGradientConfig with data := some [⟨30, "A", pieSegColor, false⟩] }

/-- A three-bar config in the gradient color mode. -/
def barGradientConfig : Clay_BarChart_Config :=
  { emptyBarConfig with
    data := some [⟨30, "A", pieSegColor⟩, ⟨50, "B", pieSegColor⟩, ⟨20, "C", pieSegColor⟩]
    colorMode := .gradient
    colorConfig := ⟨⟨none⟩, ⟨⟨100, 150, 250, 255⟩, ⟨250, 100, 150, 255⟩⟩, ⟨0⟩⟩ }

lemma hashFold_congr (l1 : List Clay_PieChart_DataPoint) :
    ∀ (l2 : List Clay_PieChart_DataPoint) (h : Nat),
      l1.map (fun p => (p.value, p.exploded)) = l2.map (fun p => (p.value, p.exploded)) →
      l1.foldl (fun h p => fnvCombine (fnvCombine h (floatBits p.value)) (boolBit p.exploded)) h =
        l2.foldl (fun h p => fnvCombine (fnvCombine h (floatBits p.value)) (boolBit p.exploded)) h := by
  induction l1 with
  | nil => intro l2 h hm; cases l2 <;> simp_all
  | cons p ps ih =>
    intro l2 h hm
    cases l2 with
    | nil => simp at hm
    | cons q qs =>
      simp only [List.map_cons, List.cons.injEq, Prod.mk.injEq] at hm
      obtain ⟨⟨hv, he⟩, hrest⟩ := hm
      simp only [List.foldl_cons, hv, he]
      exact ih qs _ hrest

lemma relabelPieData_pairs (l : List Clay_PieChart_DataPoint) :
    ∀ ss, (relabelPieData l ss).map (fun p => (p.value, p.exploded)) =
      l.map (fun p => (p.value, p.exploded)) := by
  induction l with
  | nil => intro ss; cases ss <;> simp [relabelPieData]
  | cons p ps ih =>
    intro ss
    cases ss with
    | nil => simp [relabelPieData]
    | cons s ss2 => simp [relabelPieData, ih]

/-- C1: the texture preparation step decides must-regenerate exactly when the
cached texture is not valid, the cached fingerprint differs from the current
one, or the cached width or height differs from the request; in every other
case the call leaves the cache untouched and reuses the texture.  In
particular a 256 by 256 request against a cache built for 128 by 128 with
identical data regenerates. -/
theorem C1_prepare_regeneration_decision :
    (∀ (e : Clay_PieChart_CustomElementData) (currentHash : Nat) (texWidth texHeight : Int),
      needsRegeneration e currentHash texWidth texHeight = true ↔
        (e.textureValid = false ∨ e.configHash ≠ currentHash ∨
          e.texture.width ≠ texWidth ∨ e.texture.height ≠ texHeight)) ∧
    (∀ (w : PieWorld) (bounds : Clay_BoundingBox) (t : Nat),
      (Clay_PieChart_PrepareTexture w bounds t).decision = some false →
        Clay_PieChart_PrepareTexture w bounds t = ⟨w, [], some false, []⟩) ∧
    (Clay_PieChart_PrepareTexture ⟨pieScenarioElement128, 1, 0⟩ ⟨0, 0, 128, 128⟩ 0).decision =
      some true := by
  refine ⟨?_, ?_, ?_⟩
  · intro e currentHash texWidth texHeight
    simp only [needsRegeneration, Bool.or_eq_true, bne_iff_ne, Bool.not_eq_true']
    tauto
  · intro w bounds t h
    by_cases h1 : w.element.elementType ≠ CLAY_PIECHART_CUSTOM_ELEMENT_TYPE
    · rw [Clay_PieChart_PrepareTexture] at h; simp [h1] at h
    · by_cases h2 : pieDataCount w.element.config = 0 ∨ w.element.config.data = none ∨
          w.element.totalValue ≤ 0
      · rw [Clay_PieChart_PrepareTexture] at h; simp [h1, h2] at h
      · by_cases h3 : needsRegeneration w.element (Clay_PieChart__HashConfig w.element.config)
            (max 128 (cTrunc (bounds.width * 2))) (max 128 (cTrunc (bounds.height * 2))) = true
        · rw [Clay_PieChart_PrepareTexture] at h; simp [h1, h2, h3] at h
        · rw [Clay_PieChart_PrepareTexture]; simp [h1, h2, h3]
  · norm_num [Clay_PieChart_PrepareTexture, needsRegeneration, cTrunc, pieScenarioElement128,
      pieDataCount, pieDataList, pieScenarioConfig, CLAY_PIECHART_CUSTOM_ELEMENT_TYPE,
      Option.some_ne_none]

theorem C1_prepare_regeneration_decision_witness :
    Clay_PieChart_PrepareTexture ⟨pieReuseElement256, 1, 0⟩ ⟨0, 0, 128, 128⟩ 0 =
      ⟨⟨pieReuseElement256, 1, 0⟩, [], some false, []⟩ :=
  C1_prepare_regeneration_decision.2.1 _ _ _ (by
    norm_num [Clay_PieChart_PrepareTexture, needsRegeneration, cTrunc, pieReuseElement256,
      pieDataCount, pieDataList, pieScenarioConfig, CLAY_PIECHART_CUSTOM_ELEMENT_TYPE,
      Option.some_ne_none])

/-- C2 (amended): the fingerprint Clay_PieChart__HashConfig reads exactly the
data values, exploded flags, radius, donutHoleRadius, colorMode and
showSectorLines, so two configs agreeing on those fields share a
fingerprint even when pixel-affecting fields such as startAngle,
explodeDistance or the color payloads differ. -/
theorem C2_fingerprint_covers_only_listed_fields (c1 c2 : Clay_PieChart_Config)
    (hdata : (pieDataList c1).map (fun p => (p.value, p.exploded)) =
      (pieDataList c2).map (fun p => (p.value, p.exploded)))
    (hr : c1.radius = c2.radius) (hd : c1.donutHoleRadius = c2.donutHoleRadius)
    (hm : c1.colorMode = c2.colorMode) (hs : c1.showSectorLines = c2.showSectorLines) :
    Clay_PieChart__HashConfig c1 = Clay_PieChart__HashConfig c2 := by
  simp only [Clay_PieChart__HashConfig]
  rw [hashFold_congr _ _ _ hdata, hr, hd, hm, hs]

theorem C2_fingerprint_covers_only_listed_fields_witness :
    Clay_PieChart__HashConfig pieHashTwinConfig = Clay_PieChart__HashConfig pieScenarioConfig :=
  C2_fingerprint_covers_only_listed_fields _ _ rfl rfl rfl rfl rfl

theorem C2_fingerprint_field_complete_cex :
    Clay_PieChart__HashConfig pieStartAngle0Config = Clay_PieChart__HashConfig pieScenarioConfig ∧
    pieStartAngle0Config.startAngle ≠ pieScenarioConfig.startAngle ∧
    (pieRenderPass pieStartAngle0Config 100 0 0 0 0).1.map (fun s => s.startAngleDeg) ≠
      (pieRenderPass pieScenarioConfig 100 0 0 0 0).1.map (fun s => s.startAngleDeg) := by
  refine ⟨by decide, by norm_num [pieStartAngle0Config, pieScenarioConfig], ?_⟩
  norm_num [pieRenderPass, pieSegmentLoop, pieDataList, pieStartAngle0Config, pieScenarioConfig,
    Clay_PieChart__GetSegmentColor, pieDataPointAt]

/-- C8: configs that differ only in fields the spec calls not
fingerprint-relevant (the label text of any data point, the label color and
the label font size and id) hash to the same fingerprint. -/
theorem C8_hash_ignores_label_fields (config : Clay_PieChart_Config) (newLabels : List String)
    (newTextColor : Clay_Color) (newFontSize newFontId : Nat) :
    Clay_PieChart__HashConfig
        (relabelPieConfig config newLabels newTextColor newFontSize newFontId) =
      Clay_PieChart__HashConfig config := by
  have h1 : pieDataList (relabelPieConfig config newLabels newTextColor newFontSize newFontId) =
      relabelPieData (pieDataList config) newLabels := by
    unfold relabelPieConfig pieDataList
    cases config.data <;> simp [relabelPieData]
  simp only [Clay_PieChart__HashConfig]
  rw [h1, hashFold_congr _ _ _ (relabelPieData_pairs _ _)]
  simp [relabelPieConfig]

lemma pieSegmentLoop_sweeps (cfg : Clay_PieChart_Config) (total cX cY : ℚ) (t : Nat) :
    ∀ (l : List Clay_PieChart_DataPoint) (i : Nat) (a : ℚ) (s : Nat),
      ((pieSegmentLoop cfg total cX cY t i l a s).1).map (fun sd => sd.sweepAngleDeg) =
        l.map (fun p => p.value / total * 360) := by
  intro l
  induction l with
  | nil => intro i a s; simp [pieSegmentLoop]
  | cons p ps ih => intro i a s; simp [pieSegmentLoop, ih]

lemma pieSegmentLoop_consecutive (cfg : Clay_PieChart_Config) (total cX cY : ℚ) (t : Nat) :
    ∀ (l : List Clay_PieChart_DataPoint) (i : Nat) (a : ℚ) (s : Nat),
      consecutiveFrom a ((pieSegmentLoop cfg total cX cY t i l a s).1) := by
  intro l
  induction l with
  | nil => intro i a s; simp [pieSegmentLoop, consecutiveFrom]
  | cons p ps ih =>
    intro i a s
    simp only [pieSegmentLoop, consecutiveFrom]
    exact ⟨by simp, ih _ _ _⟩

lemma sum_map_sweep (total : ℚ) : ∀ (l : List Clay_PieChart_DataPoint),
    (l.map (fun p => p.value / total * 360)).sum =
      ((l.map (fun p => p.value)).sum) / total * 360 := by
  intro l
  induction l with
  | nil => simp
  | cons p ps ih =>
    simp only [List.map_cons, List.sum_cons, ih]
    ring

/-- C6: for positive totals, segment i sweeps value_i / total * 360 degrees,
segments are laid out consecutively from the configured start angle, and
the sweeps sum to exactly 360; for data 30, 50, 20 the sweeps are 108, 180
and 72 degrees. -/
theorem C6_sweep_angles_proportional :
    (∀ (cfg : Clay_PieChart_Config) (l : List Clay_PieChart_DataPoint) (total cX cY : ℚ)
        (seed t : Nat),
      cfg.data = some l → total = (l.map (fun p => p.value)).sum → 0 < total →
        ((pieRenderPass cfg total cX cY seed t).1.map (fun sd => sd.sweepAngleDeg) =
            l.map (fun p => p.value / total * 360) ∧
          consecutiveFrom cfg.startAngle (pieRenderPass cfg total cX cY seed t).1 ∧
          ((pieRenderPass cfg total cX cY seed t).1.map (fun sd => sd.sweepAngleDeg)).sum =
            360)) ∧
    (pieRenderPass pieScenarioConfig 100 0 0 0 0).1.map (fun sd => sd.sweepAngleDeg) =
      [108, 180, 72] := by
  constructor
  · intro cfg l total cX cY seed t hd htot hpos
    have hdl : pieDataList cfg = l := by simp [pieDataList, hd]
    refine ⟨?_, ?_, ?_⟩
    · rw [pieRenderPass, hdl, pieSegmentLoop_sweeps]
    · rw [pieRenderPass]
      exact pieSegmentLoop_consecutive cfg total cX cY t (pieDataList cfg) 0
        cfg.startAngle seed
    · rw [pieRenderPass, hdl, pieSegmentLoop_sweeps, sum_map_sweep, ← htot,
        div_self (ne_of_gt hpos), one_mul]
  · norm_num [pieRenderPass, pieSegmentLoop, pieDataList, pieScenarioConfig,
      Clay_PieChart__GetSegmentColor, pieDataPointAt]

theorem C6_sweep_angles_proportional_witness :
    consecutiveFrom (-90) (pieRenderPass pieScenarioConfig 100 0 0 0 0).1 ∧
    ((pieRenderPass pieScenarioConfig 100 0 0 0 0).1.map (fun sd => sd.sweepAngleDeg)).sum =
      360 := by
  have h := C6_sweep_angles_proportional.1 pieScenarioConfig
    ([⟨30, "A", pieSegColor, false⟩, ⟨50, "B", pieSegColor, false⟩,
      ⟨20, "C", pieSegColor, false⟩] : List Clay_PieChart_DataPoint)
    100 0 0 0 0 rfl (by norm_num) (by norm_num)
  exact ⟨h.2.1, h.2.2⟩

lemma pieLerp_zero (s e : Clay_Color) : Clay_PieChart__LerpColor s e 0 = s := by
  cases s
  simp [Clay_PieChart__LerpColor]

lemma pieLerp_one (s e : Clay_Color) : Clay_PieChart__LerpColor s e 1 = e := by
  cases s
  cases e
  simp only [Clay_PieChart__LerpColor, Clay_Color.mk.injEq]
  refine ⟨by ring, by ring, by ring, by ring⟩

lemma barLerp_zero (s e : Clay_Color) : Clay_BarChart__LerpColor s e 0 = s := by
  cases s
  simp [Clay_BarChart__LerpColor]

lemma barLerp_one (s e : Clay_Color) : Clay_BarChart__LerpColor s e 1 = e := by
  cases s
  cases e
  simp only [Clay_BarChart__LerpColor, Clay_Color.mk.injEq]
  refine ⟨by ring, by ring, by ring, by ring⟩

/-- C9: the gradient color helpers are total: a single data point forces the
interpolation parameter to 0 and receives exactly the gradient start color;
with more than one point, index 0 receives the start color, index
dataCount - 1 the end color, and every index the linear interpolation at
index / (dataCount - 1). -/
theorem C9_gradient_endpoints_total :
    (∀ (config : Clay_PieChart_Config) (index seed t : Nat),
      config.colorMode = .gradient →
        (pieDataCount config = 1 →
          (Clay_PieChart__GetSegmentColor config index seed t).1 =
            config.colorConfig.gradient.start) ∧
        (1 < pieDataCount config →
          (Clay_PieChart__GetSegmentColor config 0 seed t).1 =
            config.colorConfig.gradient.start) ∧
        (1 < pieDataCount config →
          (Clay_PieChart__GetSegmentColor config (pieDataCount config - 1) seed t).1 =
            config.colorConfig.gradient.endColor) ∧
        (1 < pieDataCount config →
          (Clay_PieChart__GetSegmentColor config index seed t).1 =
            Clay_PieChart__LerpColor config.colorConfig.gradient.start
              config.colorConfig.gradient.endColor
              ((index : ℚ) / ((pieDataCount config - 1 : Nat) : ℚ)))) ∧
    (∀ (config : Clay_BarChart_Config) (index seed t : Nat),
      config.colorMode = .gradient →
        (barDataCount config = 1 →
          (Clay_BarChart__GetBarColor config index seed t).1 =
            config.colorConfig.gradient.start) ∧
        (1 < barDataCount config →
          (Clay_BarChart__GetBarColor config 0 seed t).1 =
            config.colorConfig.gradient.start) ∧
        (1 < barDataCount config →
          (Clay_BarChart__GetBarColor config (barDataCount config - 1) seed t).1 =
            config.colorConfig.gradient.endColor) ∧
        (1 < barDataCount config →
          (Clay_BarChart__GetBarColor config index seed t).1 =
            Clay_BarChart__LerpColor config.colorConfig.gradient.start
              config.colorConfig.gradient.endColor
              ((index : ℚ) / ((barDataCount config - 1 : Nat) : ℚ)))) := by
  constructor
  · intro config index seed t hmode
    refine ⟨?_, ?_, ?_, ?_⟩
    · intro hcount
      simp [Clay_PieChart__GetSegmentColor, hmode, hcount, pieLerp_zero]
    · intro hcount
      simp [Clay_PieChart__GetSegmentColor, hmode, hcount, pieLerp_zero]
    · intro hcount
      have hne : ((pieDataCount config - 1 : Nat) : ℚ) ≠ 0 := by
        rw [Nat.cast_ne_zero]
        omega
      simp [Clay_PieChart__GetSegmentColor, hmode, hcount, div_self hne, pieLerp_one]
    · intro hcount
      simp [Clay_PieChart__GetSegmentColor, hmode, hcount]
  · intro config index seed t hmode
    refine ⟨?_, ?_, ?_, ?_⟩
    · intro hcount
      simp [Clay_BarChart__GetBarColor, hmode, hcount, barLerp_zero]
    · intro hcount
      simp [Clay_BarChart__GetBarColor, hmode, hcount, barLerp_zero]
    · intro hcount
      have hne : ((barDataCount config - 1 : Nat) : ℚ) ≠ 0 := by
        rw [Nat.cast_ne_zero]
        omega
      simp [Clay_BarChart__GetBarColor, hmode, hcount, div_self hne, barLerp_one]
    · intro hcount
      simp [Clay_BarChart__GetBarColor, hmode, hcount]

theorem C9_gradient_endpoints_total_witness :
    (Clay_PieChart__GetSegmentColor pieGradientSingleConfig 0 0 0).1 =
      pieGradientSingleConfig.colorConfig.gradient.start ∧
    (Clay_PieChart__GetSegmentColor pieGradientConfig 0 0 0).1 =
      pieGradientConfig.colorConfig.gradient.start ∧
    (Clay_PieChart__GetSegmentColor pieGradientConfig 2 0 0).1 =
      pieGradientConfig.colorConfig.gradient.endColor ∧
    (Clay_BarChart__GetBarColor barGradientConfig 2 0 0).1 =
      barGradientConfig.colorConfig.gradient.endColor := by
  refine ⟨(C9_gradient_endpoints_total.1 pieGradientSingleConfig 0 0 0 rfl).1 rfl,
    (C9_gradient_endpoints_total.1 pieGradientConfig 0 0 0 rfl).2.1 (by norm_num [pieDataCount, pieDataList, pieGradientConfig, pieScenarioConfig]),
    ?_, ?_⟩
  · have h := (C9_gradient_endpoints_total.1 pieGradientConfig 2 0 0 rfl).2.2.1
      (by norm_num [pieDataCount, pieDataList, pieGradientConfig, pieScenarioConfig])
    have hc : pieDataCount pieGradientConfig - 1 = 2 := by
      norm_num [pieDataCount, pieDataList, pieGradientConfig, pieScenarioConfig]
    rwa [hc] at h
  · have h := (C9_gradient_endpoints_total.2 barGradientConfig 2 0 0 rfl).2.2.1
      (by norm_num [barDataCount, barDataList, barGradientConfig, emptyBarConfig])
    have hc : barDataCount barGradientConfig - 1 = 2 := by
      norm_num [barDataCount, barDataList, barGradientConfig, emptyBarConfig]
    rwa [hc] at h

lemma storeStream_index (f : Nat → Clay_BarChart_Config) :
    ∀ n, (storeStream initialBarStore f n).1.val = n % 32 ∧
      (storeStream initialBarStore f n).2.index = n % 32 + 1 := by
  intro n
  induction n with
  | zero =>
    simp [storeStream, Clay__StoreBarChartConfig, initialBarStore]
  | succ n ih =>
    obtain ⟨h1, h2⟩ := ih
    simp only [storeStream, Clay__StoreBarChartConfig]
    by_cases h : 32 ≤ (storeStream initialBarStore f n).2.index
    · rw [dif_pos h]
      rw [h2] at h
      constructor
      · show (0 : Nat) = (n + 1) % 32
        omega
      · show (1 : Nat) = (n + 1) % 32 + 1
        omega
    · rw [dif_neg h]
      rw [h2] at h
      constructor
      · show (storeStream initialBarStore f n).2.index = (n + 1) % 32
        omega
      · show (storeStream initialBarStore f n).2.index + 1 = (n + 1) % 32 + 1
        omega

/-- C10: Clay__StoreBarChartConfig always writes inside the 32-entry buffer,
resets the cursor to 0 when it has reached 32, stores the config with
defaults applied and returns the slot just written with the cursor
advanced past it; starting from the initial store, call n + 32 returns the
same slot as call n. -/
theorem C10_store_config_ring_buffer :
    (∀ (s : BarConfigStore) (config : Clay_BarChart_Config),
      (Clay__StoreBarChartConfig s config).2.buffer (Clay__StoreBarChartConfig s config).1 =
          applyBarConfigDefaults config ∧
        (Clay__StoreBarChartConfig s config).2.index =
          (Clay__StoreBarChartConfig s config).1.val + 1) ∧
    (∀ (s : BarConfigStore) (config : Clay_BarChart_Config),
      32 ≤ s.index → (Clay__StoreBarChartConfig s config).1.val = 0) ∧
    (∀ (f : Nat → Clay_BarChart_Config) (n : Nat),
      (storeStream initialBarStore f (n + 32)).1 = (storeStream initialBarStore f n).1) := by
  refine ⟨?_, ?_, ?_⟩
  · intro s config
    unfold Clay__StoreBarChartConfig
    by_cases h : 32 ≤ s.index
    · rw [dif_pos h]
      dsimp only
      exact ⟨Function.update_same _ _ _, rfl⟩
    · rw [dif_neg h]
      dsimp only
      exact ⟨Function.update_same _ _ _, rfl⟩
  · intro s config h
    unfold Clay__StoreBarChartConfig
    rw [dif_pos h]
  · intro f n
    have ha := storeStream_index f (n + 32)
    have hb := storeStream_index f n
    apply Fin.ext
    rw [ha.1, hb.1]
    omega

theorem C10_store_config_ring_buffer_witness :
    (Clay__StoreBarChartConfig ⟨fun _ => emptyBarConfig, 32⟩ emptyBarConfig).1.val = 0 :=
  C10_store_config_ring_buffer.2.1 ⟨fun _ => emptyBarConfig, 32⟩ emptyBarConfig (by norm_num)

/-- C3 (amended): degenerate configs (zero items, NULL data, non-positive
total) make every entry point produce no drawable output and leave the
cache untouched; Clay_PieChart_Render and Clay_PieChart_PrepareTexture are
silent, while Clay_PieChart_Draw prints a stderr diagnostic exactly when
the data count is zero or the data pointer is NULL. -/
theorem C3_degenerate_renders_nothing :
    (∀ (w : PieWorld) (config : Clay_PieChart_Config),
      pieDataCount config = 0 ∨ config.data = none ∨
          Clay_PieChart__CalculateTotalValue config ≤ 0 →
        Clay_PieChart_Render w config = ⟨w, [], false⟩) ∧
    (∀ (w : PieWorld) (bounds : Clay_BoundingBox) (t : Nat),
      pieDataCount w.element.config = 0 ∨ w.element.config.data = none ∨
          w.element.totalValue ≤ 0 →
        Clay_PieChart_PrepareTexture w bounds t = ⟨w, [], none, []⟩) ∧
    (∀ (chartId : Nat) (config : Clay_PieChart_Config)
        (cmds : List RenderCommandInfo) (seed t : Nat),
      pieDataCount config = 0 ∨ config.data = none ∨
          Clay_PieChart__CalculateTotalValue config ≤ 0 →
        (Clay_PieChart_Draw chartId config cmds seed t).segments = [] ∧
        (Clay_PieChart_Draw chartId config cmds seed t).rngSeed = seed ∧
        (Clay_PieChart_Draw chartId config cmds seed t).logs =
          (if pieDataCount config = 0 ∨ config.data = none then [PieLogEvent.noData]
            else [])) := by
  refine ⟨?_, ?_, ?_⟩
  · intro w config h
    by_cases h1 : pieDataCount config = 0 ∨ config.data = none
    · rw [Clay_PieChart_Render]; simp [h1]
    · have h2 : Clay_PieChart__CalculateTotalValue config ≤ 0 := by tauto
      rw [Clay_PieChart_Render]; simp [h1, h2]
  · intro w bounds t h
    by_cases h0 : w.element.elementType ≠ CLAY_PIECHART_CUSTOM_ELEMENT_TYPE
    · rw [Clay_PieChart_PrepareTexture]; simp [h0]
    · rw [Clay_PieChart_PrepareTexture]; simp [h0, h]
  · intro cid config cmds seed t h
    by_cases h1 : pieDataCount config = 0 ∨ config.data = none
    · rw [Clay_PieChart_Draw]; simp [h1]
    · have h2 : Clay_PieChart__CalculateTotalValue config ≤ 0 := by tauto
      rw [Clay_PieChart_Draw]; simp [h1, h2]

theorem C3_draw_logs_on_empty_data_cex :
    (Clay_PieChart_Draw 0 emptyPieDataConfig [] 0 0).logs = [PieLogEvent.noData] ∧
    (Clay_PieChart_Draw 0 emptyPieDataConfig [] 0 0).logs ≠ [] := by
  constructor <;>
    norm_num [Clay_PieChart_Draw, pieDataCount, pieDataList, emptyPieDataConfig,
      pieScenarioConfig]

theorem C3_degenerate_renders_nothing_witness :
    Clay_PieChart_Render initialPieWorld emptyPieDataConfig =
      ⟨initialPieWorld, [], false⟩ :=
  C3_degenerate_renders_nothing.1 initialPieWorld emptyPieDataConfig
    (Or.inl (by norm_num [pieDataCount, pieDataList, emptyPieDataConfig, pieScenarioConfig]))


lemma prepare_type_mismatch (w : PieWorld) (bounds : Clay_BoundingBox) (t : Nat)
    (ht : w.element.elementType ≠ CLAY_PIECHART_CUSTOM_ELEMENT_TYPE) :
    Clay_PieChart_PrepareTexture w bounds t = ⟨w, [], none, []⟩ := by
  rw [Clay_PieChart_PrepareTexture]; simp [ht]

lemma prepare_degenerate (w : PieWorld) (bounds : Clay_BoundingBox) (t : Nat)
    (hd : pieDataCount w.element.config = 0 ∨ w.element.config.data = none ∨
      w.element.totalValue ≤ 0) :
    Clay_PieChart_PrepareTexture w bounds t = ⟨w, [], none, []⟩ := by
  by_cases ht : w.element.elementType ≠ CLAY_PIECHART_CUSTOM_ELEMENT_TYPE
  · exact prepare_type_mismatch w bounds t ht
  · rw [Clay_PieChart_PrepareTexture]; simp [ht, hd]

lemma prepare_reuse (w : PieWorld) (bounds : Clay_BoundingBox) (t : Nat)
    (ht : w.element.elementType = CLAY_PIECHART_CUSTOM_ELEMENT_TYPE)
    (hd : ¬(pieDataCount w.element.config = 0 ∨ w.element.config.data = none ∨
      w.element.totalValue ≤ 0))
    (hn : needsRegeneration w.element (Clay_PieChart__HashConfig w.element.config)
      (max 128 (cTrunc (bounds.width * 2))) (max 128 (cTrunc (bounds.height * 2))) = false) :
    Clay_PieChart_PrepareTexture w bounds t = ⟨w, [], some false, []⟩ := by
  rw [Clay_PieChart_PrepareTexture]; simp [ht, hd, hn]

lemma prepare_regen (w : PieWorld) (bounds : Clay_BoundingBox) (t : Nat)
    (ht : w.element.elementType = CLAY_PIECHART_CUSTOM_ELEMENT_TYPE)
    (hd : ¬(pieDataCount w.element.config = 0 ∨ w.element.config.data = none ∨
      w.element.totalValue ≤ 0))
    (hn : needsRegeneration w.element (Clay_PieChart__HashConfig w.element.config)
      (max 128 (cTrunc (bounds.width * 2))) (max 128 (cTrunc (bounds.height * 2))) = true) :
    (Clay_PieChart_PrepareTexture w bounds t).world.element =
      { w.element with
        texture := ⟨w.nextId + 1, max 128 (cTrunc (bounds.width * 2)),
          max 128 (cTrunc (bounds.height * 2))⟩
        textureValid := true
        configHash := Clay_PieChart__HashConfig w.element.config } ∧
    (Clay_PieChart_PrepareTexture w bounds t).world.nextId = w.nextId + 1 ∧
    (Clay_PieChart_PrepareTexture w bounds t).events =
      (if w.element.textureValid && (w.element.texture.id != 0) then
        [TexEvent.unload w.element.texture.id] else []) ++
        [TexEvent.load (w.nextId + 1) (max 128 (cTrunc (bounds.width * 2)))
          (max 128 (cTrunc (bounds.height * 2)))] ∧
    (Clay_PieChart_PrepareTexture w bounds t).decision = some true := by
  rw [Clay_PieChart_PrepareTexture]
  simp [ht, hd, hn]

/-- C4: when a preparation call decides to regenerate, it marks the texture
valid and stores the current fingerprint, and an immediately repeated call
with the same config and bounding box decides not to regenerate: true then
false. -/
theorem C4_regenerate_then_reuse (w : PieWorld) (bounds : Clay_BoundingBox) (t1 t2 : Nat)
    (h : (Clay_PieChart_PrepareTexture w bounds t1).decision = some true) :
    (Clay_PieChart_PrepareTexture w bounds t1).world.element.textureValid = true ∧
    (Clay_PieChart_PrepareTexture w bounds t1).world.element.configHash =
      Clay_PieChart__HashConfig
        (Clay_PieChart_PrepareTexture w bounds t1).world.element.config ∧
    (Clay_PieChart_PrepareTexture (Clay_PieChart_PrepareTexture w bounds t1).world
        bounds t2).decision = some false := by
  by_cases h1 : w.element.elementType = CLAY_PIECHART_CUSTOM_ELEMENT_TYPE
  case neg =>
    rw [prepare_type_mismatch w bounds t1 h1] at h
    simp at h
  case pos =>
  by_cases h2 : pieDataCount w.element.config = 0 ∨ w.element.config.data = none ∨
      w.element.totalValue ≤ 0
  case pos =>
    rw [prepare_degenerate w bounds t1 h2] at h
    simp at h
  case neg =>
  by_cases h3 : needsRegeneration w.element (Clay_PieChart__HashConfig w.element.config)
      (max 128 (cTrunc (bounds.width * 2))) (max 128 (cTrunc (bounds.height * 2))) = true
  case neg =>
    rw [prepare_reuse w bounds t1 h1 h2 (by simpa using h3)] at h
    simp at h
  case pos =>
  obtain ⟨he, hn, hev, hdec⟩ := prepare_regen w bounds t1 h1 h2 h3
  refine ⟨by rw [he], by rw [he], ?_⟩
  have hfix : needsRegeneration (Clay_PieChart_PrepareTexture w bounds t1).world.element
      (Clay_PieChart__HashConfig
        (Clay_PieChart_PrepareTexture w bounds t1).world.element.config)
      (max 128 (cTrunc (bounds.width * 2))) (max 128 (cTrunc (bounds.height * 2))) = false := by
    rw [he]
    simp [needsRegeneration]
  rw [prepare_reuse _ bounds t2 (by rw [he]; exact h1) (by rw [he]; exact h2) hfix]

theorem C4_regenerate_then_reuse_witness :
    (Clay_PieChart_PrepareTexture ⟨pieScenarioElement128, 1, 0⟩
        ⟨0, 0, 128, 128⟩ 0).world.element.textureValid = true ∧
    (Clay_PieChart_PrepareTexture ⟨pieScenarioElement128, 1, 0⟩
        ⟨0, 0, 128, 128⟩ 0).world.element.configHash =
      Clay_PieChart__HashConfig
        (Clay_PieChart_PrepareTexture ⟨pieScenarioElement128, 1, 0⟩
          ⟨0, 0, 128, 128⟩ 0).world.element.config ∧
    (Clay_PieChart_PrepareTexture
        (Clay_PieChart_PrepareTexture ⟨pieScenarioElement128, 1, 0⟩
          ⟨0, 0, 128, 128⟩ 0).world ⟨0, 0, 128, 128⟩ 0).decision = some false :=
  C4_regenerate_then_reuse ⟨pieScenarioElement128, 1, 0⟩ ⟨0, 0, 128, 128⟩ 0 0 (by
    norm_num [Clay_PieChart_PrepareTexture, needsRegeneration, cTrunc, pieScenarioElement128,
      pieDataCount, pieDataList, pieScenarioConfig, CLAY_PIECHART_CUSTOM_ELEMENT_TYPE,
      Option.some_ne_none])

lemma pieSegmentLoop_random_colors :
    ∀ (l1 l2 : List Clay_PieChart_DataPoint)
      (c1 c2 : Clay_PieChart_Config) (tot1 tot2 cX1 cY1 cX2 cY2 : ℚ)
      (t1 t2 i1 i2 : Nat) (a1 a2 : ℚ) (s : Nat),
      c1.colorMode = .random → c2.colorMode = .random →
      c1.colorConfig.random.seed = c2.colorConfig.random.seed →
      c1.colorConfig.random.seed ≠ 0 →
      l1.length = l2.length →
      ((pieSegmentLoop c1 tot1 cX1 cY1 t1 i1 l1 a1 s).1.map (fun sd => sd.color) =
          (pieSegmentLoop c2 tot2 cX2 cY2 t2 i2 l2 a2 s).1.map (fun sd => sd.color) ∧
        (pieSegmentLoop c1 tot1 cX1 cY1 t1 i1 l1 a1 s).2 =
          (pieSegmentLoop c2 tot2 cX2 cY2 t2 i2 l2 a2 s).2) := by
  intro l1
  induction l1 with
  | nil =>
    intro l2 c1 c2 tot1 tot2 cX1 cY1 cX2 cY2 t1 t2 i1 i2 a1 a2 s hm1 hm2 hsq hsn hlen
    cases l2 with
    | nil => simp [pieSegmentLoop]
    | cons q qs => simp at hlen
  | cons p ps ih =>
    intro l2 c1 c2 tot1 tot2 cX1 cY1 cX2 cY2 t1 t2 i1 i2 a1 a2 s hm1 hm2 hsq hsn hlen
    cases l2 with
    | nil => simp at hlen
    | cons q qs =>
      simp only [List.length_cons, Nat.add_right_cancel_iff] at hlen
      have hcol : Clay_PieChart__GetSegmentColor c1 i1 s t1 =
          Clay_PieChart__GetSegmentColor c2 i2 s t2 := by
        simp [Clay_PieChart__GetSegmentColor, hm1, hm2, ← hsq, hsn]
      obtain ⟨hmap, hseed⟩ := ih qs c1 c2 tot1 tot2 cX1 cY1 cX2 cY2 t1 t2 (i1 + 1) (i2 + 1)
        (a1 + p.value / tot1 * 360) (a2 + q.value / tot2 * 360)
        (Clay_PieChart__GetSegmentColor c2 i2 s t2).2 hm1 hm2 hsq hsn hlen
      simp only [pieSegmentLoop, List.map_cons]
      rw [hcol]
      exact ⟨by rw [hmap], hseed⟩

/-- C7 (amended): in the random color mode with a fixed nonzero configured
seed, the colors of a render pass are a deterministic function of the seed
and of the hidden global PRNG state, independent of the chart data,
geometry and time: two passes run from the same PRNG state with the same
seed color their segments identically, across chart instances. -/
theorem C7_random_color_stream_deterministic :
    ∀ (c1 c2 : Clay_PieChart_Config) (tot1 tot2 cX1 cY1 cX2 cY2 : ℚ) (s t1 t2 : Nat),
      c1.colorMode = .random → c2.colorMode = .random →
      c1.colorConfig.random.seed = c2.colorConfig.random.seed →
      c1.colorConfig.random.seed ≠ 0 →
      pieDataCount c1 = pieDataCount c2 →
      ((pieRenderPass c1 tot1 cX1 cY1 s t1).1.map (fun sd => sd.color) =
          (pieRenderPass c2 tot2 cX2 cY2 s t2).1.map (fun sd => sd.color) ∧
        (pieRenderPass c1 tot1 cX1 cY1 s t1).2 = (pieRenderPass c2 tot2 cX2 cY2 s t2).2) := by
  intro c1 c2 tot1 tot2 cX1 cY1 cX2 cY2 s t1 t2 hm1 hm2 hsq hsn hcount
  exact pieSegmentLoop_random_colors (pieDataList c1) (pieDataList c2) c1 c2 tot1 tot2
    cX1 cY1 cX2 cY2 t1 t2 0 0 c1.startAngle c2.startAngle s hm1 hm2 hsq hsn hcount

theorem C7_random_color_not_index_deterministic_cex :
    (pieRenderPass pieRandomSeedConfig 30 0 0 0 7).1.map (fun sd => sd.color) ≠
      (pieRenderPass pieRandomSeedConfig 30 0 0
        (pieRenderPass pieRandomSeedConfig 30 0 0 0 7).2 7).1.map (fun sd => sd.color) := by
  norm_num [pieRenderPass, pieSegmentLoop, pieDataList, pieRandomSeedConfig, pieScenarioConfig,
    Clay_PieChart__GetSegmentColor, Clay_PieChart__Random, randomColorOf, Clay_Color.mk.injEq]

theorem C7_random_color_stream_deterministic_witness :
    (pieRenderPass pieRandomTwinA 80 0 0 0 3).1.map (fun sd => sd.color) =
      (pieRenderPass pieRandomTwinB 3 5 5 0 9).1.map (fun sd => sd.color) ∧
    (pieRenderPass pieRandomTwinA 80 0 0 0 3).2 = (pieRenderPass pieRandomTwinB 3 5 5 0 9).2 :=
  C7_random_color_stream_deterministic pieRandomTwinA pieRandomTwinB 80 3 0 0 5 5 0 3 9 rfl rfl rfl (by decide) (by decide)

lemma render_skip (w : PieWorld) (config : Clay_PieChart_Config)
    (h : pieDataCount config = 0 ∨ config.data = none ∨
      Clay_PieChart__CalculateTotalValue config ≤ 0) :
    Clay_PieChart_Render w config = ⟨w, [], false⟩ := by
  by_cases h1 : pieDataCount config = 0 ∨ config.data = none
  · rw [Clay_PieChart_Render]; simp [h1]
  · have h2 : Clay_PieChart__CalculateTotalValue config ≤ 0 := by tauto
    rw [Clay_PieChart_Render]; simp [h1, h2]

lemma render_main (w : PieWorld) (config : Clay_PieChart_Config)
    (h1 : ¬(pieDataCount config = 0 ∨ config.data = none))
    (h2 : ¬(Clay_PieChart__CalculateTotalValue config ≤ 0)) :
    Clay_PieChart_Render w config =
      ⟨⟨⟨CLAY_PIECHART_CUSTOM_ELEMENT_TYPE, config, Clay_PieChart__CalculateTotalValue config,
          Clay_PieChart__HashConfig config,
          if w.element.configHash != Clay_PieChart__HashConfig config then ⟨0, 0, 0⟩
            else w.element.texture,
          if w.element.configHash != Clay_PieChart__HashConfig config then false
            else w.element.textureValid⟩,
        w.nextId, w.rngSeed⟩,
      if (w.element.configHash != Clay_PieChart__HashConfig config) && w.element.textureValid
          && (w.element.texture.id != 0) then [TexEvent.unload w.element.texture.id] else [],
      true⟩ := by
  rw [Clay_PieChart_Render]
  simp [h1, h2]

lemma liveOf_length (w : PieWorld) : (liveOf w).length ≤ 1 := by
  rw [liveOf]; split <;> simp

lemma texId_zero (w : PieWorld) (hw : PieWorldInv w)
    (hv : w.element.textureValid = false ∨ w.element.texture.id = 0) :
    w.element.texture.id = 0 := by
  rcases hv with hv | hv
  · by_contra hne
    simp [hw.mpr hne] at hv
  · exact hv

lemma append_eq_single {α : Type} {p q : List α} {x : α} (h : p ++ q = [x]) :
    p = [] ∨ p = [x] := by
  cases p with
  | nil => exact Or.inl rfl
  | cons a as =>
    simp only [List.cons_append, List.cons.injEq] at h
    obtain ⟨hx, hrest⟩ := h
    rcases List.append_eq_nil.mp hrest with ⟨h1, h2⟩
    subst hx h1
    exact Or.inr rfl

lemma append_eq_pair {α : Type} {p q : List α} {x y : α} (h : p ++ q = [x, y]) :
    p = [] ∨ p = [x] ∨ p = [x, y] := by
  cases p with
  | nil => exact Or.inl rfl
  | cons a as =>
    simp only [List.cons_append, List.cons.injEq] at h
    obtain ⟨hx, hrest⟩ := h
    subst hx
    rcases append_eq_single hrest with h1 | h1 <;> subst h1
    · exact Or.inr (Or.inl rfl)
    · exact Or.inr (Or.inr rfl)

lemma stepOp_live (w : PieWorld) (op : PieOp) (hw : PieWorldInv w) :
    PieWorldInv (stepOp w op).1 ∧
    List.foldl applyTexEvent (liveOf w) (stepOp w op).2 = liveOf (stepOp w op).1 ∧
    ∀ p q, p ++ q = (stepOp w op).2 →
      (List.foldl applyTexEvent (liveOf w) p).length ≤ 1 := by
  cases op with
  | renderOp config =>
    simp only [stepOp]
    by_cases hd : pieDataCount config = 0 ∨ config.data = none ∨
        Clay_PieChart__CalculateTotalValue config ≤ 0
    · rw [render_skip w config hd]
      refine ⟨hw, rfl, ?_⟩
      intro p q hpq
      rcases List.append_eq_nil.mp hpq with ⟨h1, _⟩
      subst h1
      exact liveOf_length w
    · have h1 : ¬(pieDataCount config = 0 ∨ config.data = none) := by tauto
      have h2 : ¬(Clay_PieChart__CalculateTotalValue config ≤ 0) := by tauto
      rw [render_main w config h1 h2]
      by_cases hcc : (w.element.configHash != Clay_PieChart__HashConfig config) = true
      · by_cases hv : (w.element.textureValid && (w.element.texture.id != 0)) = true
        · rw [Bool.and_eq_true, bne_iff_ne] at hv
          have hid : w.element.texture.id ≠ 0 := hv.2
          have hlive : liveOf w = [w.element.texture.id] := by rw [liveOf, if_neg hid]
          have hcond : ((w.element.configHash != Clay_PieChart__HashConfig config) &&
              w.element.textureValid && (w.element.texture.id != 0)) = true := by
            simp [hcc, hv.1, hid]
          refine ⟨?_, ?_, ?_⟩
          · simp [PieWorldInv, hcc]
          · rw [if_pos hcond, hlive]
            simp [applyTexEvent, liveOf, hcc]
          · intro p q hpq
            rw [if_pos hcond] at hpq
            rcases append_eq_single hpq with h | h <;> subst h
            · exact liveOf_length w
            · rw [hlive]
              simp [applyTexEvent]
        · have hvor : w.element.textureValid = false ∨ w.element.texture.id = 0 := by
            by_cases hval : w.element.textureValid = true
            · right
              by_contra hne
              exact hv (by simp [hval, hne])
            · exact Or.inl (by simpa using hval)
          have hid0 : w.element.texture.id = 0 := texId_zero w hw hvor
          have hnil : liveOf w = [] := by rw [liveOf, if_pos hid0]
          have hcond : ((w.element.configHash != Clay_PieChart__HashConfig config) &&
              w.element.textureValid && (w.element.texture.id != 0)) = false := by
            simp [hid0]
          refine ⟨?_, ?_, ?_⟩
          · simp [PieWorldInv, hcc]
          · simp [hnil, hcc, hid0, liveOf, applyTexEvent]
          · intro p q hpq
            simp [hcc, hid0] at hpq
            rcases hpq with ⟨hp, _⟩
            subst hp
            exact liveOf_length w
      · rw [Bool.not_eq_true] at hcc
        have hcond : ((w.element.configHash != Clay_PieChart__HashConfig config) &&
            w.element.textureValid && (w.element.texture.id != 0)) = false := by
          simp [hcc]
        refine ⟨?_, ?_, ?_⟩
        · simpa [PieWorldInv, hcc] using hw
        · simp [liveOf, hcc]
        · intro p q hpq
          simp [hcc] at hpq
          rcases hpq with ⟨hp, _⟩
          subst hp
          exact liveOf_length w
  | prepareOp bounds t =>
    simp only [stepOp]
    by_cases ht : w.element.elementType = CLAY_PIECHART_CUSTOM_ELEMENT_TYPE
    case neg =>
      rw [prepare_type_mismatch w bounds t ht]
      refine ⟨hw, rfl, ?_⟩
      intro p q hpq
      rcases List.append_eq_nil.mp hpq with ⟨h1, _⟩
      subst h1
      exact liveOf_length w
    case pos =>
    by_cases hdg : pieDataCount w.element.config = 0 ∨ w.element.config.data = none ∨
        w.element.totalValue ≤ 0
    case pos =>
      rw [prepare_degenerate w bounds t hdg]
      refine ⟨hw, rfl, ?_⟩
      intro p q hpq
      rcases List.append_eq_nil.mp hpq with ⟨h1, _⟩
      subst h1
      exact liveOf_length w
    case neg =>
    by_cases hreg : needsRegeneration w.element (Clay_PieChart__HashConfig w.element.config)
        (max 128 (cTrunc (bounds.width * 2))) (max 128 (cTrunc (bounds.height * 2))) = true
    case neg =>
      rw [prepare_reuse w bounds t ht hdg (by simpa using hreg)]
      refine ⟨hw, rfl, ?_⟩
      intro p q hpq
      rcases List.append_eq_nil.mp hpq with ⟨h1, _⟩
      subst h1
      exact liveOf_length w
    case pos =>
    obtain ⟨he, hnext, hev, _⟩ := prepare_regen w bounds t ht hdg hreg
    have hinv2 : PieWorldInv (Clay_PieChart_PrepareTexture w bounds t).world := by
      rw [PieWorldInv, he]
      simp
    have hlive2 : liveOf (Clay_PieChart_PrepareTexture w bounds t).world = [w.nextId + 1] := by
      rw [liveOf, he]
      simp
    by_cases hv : (w.element.textureValid && (w.element.texture.id != 0)) = true
    · rw [Bool.and_eq_true, bne_iff_ne] at hv
      have hid : w.element.texture.id ≠ 0 := hv.2
      have hlive : liveOf w = [w.element.texture.id] := by rw [liveOf, if_neg hid]
      have hevs : (Clay_PieChart_PrepareTexture w bounds t).events =
          [TexEvent.unload w.element.texture.id,
            TexEvent.load (w.nextId + 1) (max 128 (cTrunc (bounds.width * 2)))
              (max 128 (cTrunc (bounds.height * 2)))] := by
        rw [hev, if_pos (by simp [hv.1, hid])]
        rfl
      refine ⟨hinv2, ?_, ?_⟩
      · rw [hevs, hlive2, hlive]
        simp [applyTexEvent]
      · intro p q hpq
        rw [hevs] at hpq
        rcases append_eq_pair hpq with h | h | h <;> subst h
        · exact liveOf_length w
        · rw [hlive]
          simp [applyTexEvent]
        · rw [hlive]
          simp [applyTexEvent]
    · have hvor : w.element.textureValid = false ∨ w.element.texture.id = 0 := by
        by_cases hval : w.element.textureValid = true
        · right
          by_contra hne
          exact hv (by simp [hval, hne])
        · exact Or.inl (by simpa using hval)
      have hid0 : w.element.texture.id = 0 := texId_zero w hw hvor
      have hnil : liveOf w = [] := by rw [liveOf, if_pos hid0]
      have hevs : (Clay_PieChart_PrepareTexture w bounds t).events =
          [TexEvent.load (w.nextId + 1) (max 128 (cTrunc (bounds.width * 2)))
            (max 128 (cTrunc (bounds.height * 2)))] := by
        rw [hev, if_neg (by simp [hv])]
        rfl
      refine ⟨hinv2, ?_, ?_⟩
      · rw [hevs, hnil, hlive2]
        simp [applyTexEvent]
      · intro p q hpq
        rw [hevs] at hpq
        rcases append_eq_single hpq with h | h <;> subst h
        · exact liveOf_length w
        · rw [hnil]
          simp [applyTexEvent]

lemma runOps_live (ops : List PieOp) : ∀ (w : PieWorld), PieWorldInv w →
    PieWorldInv (runOps w ops).1 ∧
    List.foldl applyTexEvent (liveOf w) (runOps w ops).2 = liveOf (runOps w ops).1 ∧
    ∀ p q, p ++ q = (runOps w ops).2 →
      (List.foldl applyTexEvent (liveOf w) p).length ≤ 1 := by
  induction ops with
  | nil =>
    intro w hw
    refine ⟨hw, rfl, ?_⟩
    intro p q hpq
    rcases List.append_eq_nil.mp hpq with ⟨hp, _⟩
    subst hp
    exact liveOf_length w
  | cons op ops ih =>
    intro w hw
    obtain ⟨hInv1, hFold1, hPre1⟩ := stepOp_live w op hw
    obtain ⟨hInv2, hFold2, hPre2⟩ := ih (stepOp w op).1 hInv1
    simp only [runOps]
    refine ⟨hInv2, ?_, ?_⟩
    · rw [List.foldl_append, hFold1, hFold2]
    · intro p q hpq
      rcases List.append_eq_append_iff.mp hpq with ⟨a, ha1, ha2⟩ | ⟨c, hc1, hc2⟩
      · exact hPre1 p a ha1.symm
      · subst hc1
        rw [List.foldl_append, hFold1]
        exact hPre2 c q hc2.symm

/-- C5: along every sequence of Render and PrepareTexture calls from the
initial state, at every point of the resource event trace at most one
render texture handle is live (the old texture is released before its
replacement is allocated), and any texture handed out by GetTexture is a
live handle. -/
theorem C5_at_most_one_live_texture :
    (∀ (ops : List PieOp) (p q : List TexEvent),
      p ++ q = (runOps initialPieWorld ops).2 → (liveAfter p).length ≤ 1) ∧
    (∀ (ops : List PieOp) (tex : RenderTexture2D),
      Clay_PieChart_GetTexture (runOps initialPieWorld ops).1.element = some tex →
        tex.id ∈ liveAfter (runOps initialPieWorld ops).2) := by
  have hInit : PieWorldInv initialPieWorld := by
    simp [PieWorldInv, initialPieWorld]
  have hnil : liveOf initialPieWorld = [] := by
    simp [liveOf, initialPieWorld]
  constructor
  · intro ops p q hpq
    have h := (runOps_live ops initialPieWorld hInit).2.2 p q hpq
    rw [hnil] at h
    exact h
  · intro ops tex htex
    obtain ⟨hInvF, hFoldF, _⟩ := runOps_live ops initialPieWorld hInit
    rw [Clay_PieChart_GetTexture] at htex
    split at htex
    · exact absurd htex (by simp)
    · split at htex
      case isTrue hvalid =>
        have htex2 : (runOps initialPieWorld ops).1.element.texture = tex := by
          simpa using htex
        have hidne : (runOps initialPieWorld ops).1.element.texture.id ≠ 0 := hInvF.mp hvalid
        have hLA : liveAfter (runOps initialPieWorld ops).2 =
            liveOf (runOps initialPieWorld ops).1 := by
          rw [hnil] at hFoldF
          rw [liveAfter]
          exact hFoldF
        rw [hLA, liveOf, if_neg hidne, htex2]
        exact List.mem_singleton.mpr rfl
      case isFalse => exact absurd htex (by simp)

theorem C5_at_most_one_live_texture_witness : (liveAfter []).length ≤ 1 :=
  C5_at_most_one_live_texture.1 [PieOp.renderOp emptyPieConfig] [] [] rfl
